import Mathlib

/-!
Verification development for the Plotscript-style interpreter whose interface
is declared in `expression.hpp` (Expression / Atom / Environment evaluation
engine plus the discrete/continuous plot compilers).

The repository's sources contain only the interface header
(`src/expression.hpp`): the method bodies, the `Atom` variant and the
`Environment` class live outside `src/`.  Every definition below therefore
either embeds what the header pins down (the constants `N, A, B, C, D, P`,
member names, return types, the doc comment of `tail()`) or is modelled from
the specification's words, as noted in its doc comment.

Modelling conventions:
* C++ `double` payloads are modelled as `ℚ` (exact rationals), keeping the
  arithmetic the spec describes decidable.
* The `Environment` parent chain is modelled as an arena of frames indexed by
  a natural-number handle, following the spec's own design note: "implement
  as an owning arena of frames indexed by handle".  Shared-reference capture
  of an environment by a closure is a stored handle into the arena.
* The process-global `sig_atomic_t global_status_flag` is modelled as an
  explicit `Bool` threaded through evaluation and consulted at each
  continuous-plot sampling iteration, following the spec's design note on
  reframing the flag as a cancellation token.
* Evaluation is a fuel-indexed total function; exhausting the fuel yields
  `RecursionLimitError`, matching the spec's demand that implementations
  bound recursion depth.
-/

namespace Plotscript

/-- The header's process-wide default styling constant `N = 20.0`
(default list size / sample count). -/
def N : ℚ := 20

/-- The header's constant `A = 3.0` (point/line default geometry). -/
def A : ℚ := 3

/-- The header's constant `B = 3.0` (point/line default geometry). -/
def B : ℚ := 3

/-- The header's constant `C = 2.0` (default thickness-like parameter). -/
def C : ℚ := 2

/-- The header's constant `D = 2.0` (default thickness-like parameter). -/
def D : ℚ := 2

/-- The header's constant `P = 0.5` (default point size). -/
def P : ℚ := 1/2

/-- Modelled from the spec: the Atom tag set
{None, Number, Complex, Symbol, String, List-marker, Lambda-marker}.
`procM` additionally marks a built-in procedure value stored in the global
Environment (the spec's examples call `+`, `*` and `list`, whose
implementation lives outside `src/`). -/
inductive Atom where
  | noneA : Atom
  | number : ℚ → Atom
  | complex : ℚ → ℚ → Atom
  | symbol : String → Atom
  | str : String → Atom
  | listM : Atom
  | lambdaM : Atom
  | procM : String → Atom
  deriving Repr, DecidableEq

/-- The Expression tree of `expression.hpp`: a head `Atom`, an ordered tail
of child Expressions (`m_tail`), and the per-node property map
(`propertymap`, a mapping from attribute name to Expression).
`capturedEnv` models the Environment handle a Lambda-headed Expression
captures at creation time (spec: closures capture the defining Environment
by shared reference; the shared reference is an arena handle). -/
inductive Expression where
  | mk (m_head : Atom) (m_tail : List Expression)
       (propertymap : List (String × Expression))
       (capturedEnv : Option Nat) : Expression

/-- The head Atom of an Expression (`Expression::head`). -/
def Expression.m_head : Expression → Atom
  | .mk a _ _ _ => a

/-- The tail vector of an Expression (`Expression::m_tail`). -/
def Expression.m_tail : Expression → List Expression
  | .mk _ t _ _ => t

/-- The property map of an Expression (`Expression::propertymap`). -/
def Expression.propertymap : Expression → List (String × Expression)
  | .mk _ _ p _ => p

/-- The Environment handle captured by a Lambda-headed Expression. -/
def Expression.capturedEnv : Expression → Option Nat
  | .mk _ _ _ c => c

/-- Modelled from the spec/header doc comment of `Expression::tail()`:
"return a pointer to the last expression in the tail, or nullptr"
(the body is outside `src/`).  `nullptr` is modelled as `Option.none`. -/
def Expression.tail (e : Expression) : Option Expression :=
  e.m_tail.getLast?

/-- A default-constructed Expression (NoneType head). -/
def noneE : Expression := .mk .noneA [] [] .none

/-- A Number literal leaf. -/
def numE (q : ℚ) : Expression := .mk (.number q) [] [] .none

/-- A Complex literal leaf. -/
def cplxE (re im : ℚ) : Expression := .mk (.complex re im) [] [] .none

/-- A String literal leaf. -/
def strE (s : String) : Expression := .mk (.str s) [] [] .none

/-- A Symbol leaf. -/
def symE (s : String) : Expression := .mk (.symbol s) [] [] .none

/-- A List-headed Expression with the given elements as tail. -/
def listE (es : List Expression) : Expression := .mk .listM es [] .none

/-- An application/special-form node: symbol head with argument tail. -/
def callE (f : String) (args : List Expression) : Expression :=
  .mk (.symbol f) args [] .none

/-- A built-in procedure value (stored in the global Environment). -/
def procE (nm : String) : Expression := .mk (.procM nm) [] [] .none

/-- First-match association-list search; the search order matters: the
spec's lookup returns the first binding found. -/
def assocFind (k : String) : List (String × Expression) → Option Expression
  | [] => .none
  | p :: ps => if p.1 = k then .some p.2 else assocFind k ps

/-- The spec's error taxonomy (section 7), plus `cancelledError` for the
status-flag interrupt described in the spec's design notes (section 9). -/
inductive EvalError where
  | unboundSymbolError
  | invalidDefineError
  | emptySequenceError
  | notAProcedureError
  | arityError
  | invalidExpressionError
  | invalidDomainError
  | recursionLimitError
  | cancelledError
  deriving Repr, DecidableEq

/-- Modelled from the spec: an Environment frame — bindings from symbol
name to Expression plus an optional parent frame (here a handle into the
arena of frames). -/
structure Frame where
  bindings : List (String × Expression)
  parent : Option Nat

/-- Modelled from the spec's design note: the Environment chain as an
owning arena of frames indexed by handle. -/
structure EnvStore where
  frames : List Frame

/-- Chain lookup with explicit fuel (the chain of a well-formed store is
strictly handle-decreasing, so `h + 1` steps always suffice). -/
def lookupFuel (s : EnvStore) (x : String) : Nat → Nat → Option Expression
  | 0, _ => .none
  | fuel + 1, h =>
    match s.frames[h]? with
    | .none => .none
    | .some fr =>
      match assocFind x fr.bindings with
      | .some v => .some v
      | .none =>
        match fr.parent with
        | .none => .none
        | .some p => lookupFuel s x fuel p

/-- Modelled from the spec: `Environment::lookup` — search the current
frame, then each parent in order, until found or the chain is exhausted. -/
def EnvStore.lookup (s : EnvStore) (h : Nat) (x : String) : Option Expression :=
  lookupFuel s x (h + 1) h

/-- The bindings of the frame chain starting at handle `h`, concatenated
current-frame-first (a specification-side view of the search order). -/
def chainBindings (s : EnvStore) : Nat → Nat → List (String × Expression)
  | 0, _ => []
  | fuel + 1, h =>
    match s.frames[h]? with
    | .none => []
    | .some fr =>
      fr.bindings ++
        (match fr.parent with
         | .none => []
         | .some p => chainBindings s fuel p)

/-- Modelled from the spec: `Environment::define` — bind in the current
frame only; redefinition in the same frame overwrites; frames other than
`h` are untouched. -/
def EnvStore.define (s : EnvStore) (h : Nat) (x : String) (v : Expression) : EnvStore :=
  match s.frames[h]? with
  | .none => s
  | .some fr =>
    ⟨s.frames.set h ⟨(x, v) :: fr.bindings.filter (fun p => p.1 ≠ x), fr.parent⟩⟩

/-- Modelled from the spec: `Environment::childFrame` — a fresh frame whose
parent is the given handle; returns the new store and the new handle. -/
def EnvStore.childFrame (s : EnvStore) (h : Nat) : EnvStore × Nat :=
  (⟨s.frames ++ [⟨[], .some h⟩]⟩, s.frames.length)

/-- The result of one evaluation step: either an error from the spec's
taxonomy, or a value together with the (possibly extended) frame arena. -/
abbrev Res := Except EvalError (Expression × EnvStore)

/-- The spec's reserved keyword surface (section 6, "must match exactly"). -/
def reservedKeywords : List String :=
  ["define", "begin", "lambda", "apply", "map", "set-property",
   "get-property", "discrete-plot", "continuous-plot"]

/-- The symbol names of a list of Symbol leaves, or `none` if some element
is not a Symbol. -/
def symNames : List Expression → Option (List String)
  | [] => .some []
  | e :: es =>
    match e.m_head with
    | .symbol x => (symNames es).map (x :: ·)
    | _ => .none

/-- The formal-parameter names of a formals Expression: it must be a
List of Symbols (spec, `handle_lambda` validation). -/
def formalNames (fs : Expression) : Option (List String) :=
  match fs.m_head with
  | .listM => symNames fs.m_tail
  | _ => .none

/-- The formal-parameter names of a Lambda-headed Expression (its tail
holds the formals List and the body). -/
def formalsOf (f : Expression) : Option (List String) :=
  match f.m_tail with
  | [fs, _] => formalNames fs
  | _ => .none

/-- Evaluate a list of expressions strictly left-to-right with the given
sub-evaluator, collecting the values in order (the spec's eager
left-to-right argument evaluation). -/
def seqEval (ev : Expression → EnvStore → Nat → Res) :
    List Expression → EnvStore → Nat → Except EvalError (List Expression × EnvStore)
  | [], s, _ => .ok ([], s)
  | e :: es, s, h =>
    match ev e s h with
    | .error err => .error err
    | .ok (v, s1) =>
      match seqEval ev es s1 h with
      | .error err => .error err
      | .ok (vs, s2) => .ok (v :: vs, s2)

/-- Bind formal names to argument values, in order, in frame `h`. -/
def bindAll (s : EnvStore) (h : Nat) : List String → List Expression → EnvStore
  | [], _ => s
  | _, [] => s
  | x :: xs, v :: vs => bindAll (s.define h x v) h xs vs

/-- Modelled from the spec: calling a Lambda — a child frame of the
lambda's *captured* environment is created, formals are bound positionally
to the (already evaluated) arguments (`ArityError` on count mismatch), and
the body is evaluated in that child frame. -/
def applyLam (ev : Expression → EnvStore → Nat → Res)
    (f : Expression) (args : List Expression) (s : EnvStore) : Res :=
  match f.m_tail with
  | [fs, body] =>
    match formalNames fs with
    | .some ns =>
      if ns.length = args.length then
        match f.capturedEnv with
        | .some hc =>
          let fresh := s.childFrame hc
          ev body (bindAll fresh.1 fresh.2 ns args) fresh.2
        | .none => .error .invalidExpressionError
      else .error .arityError
    | .none => .error .invalidExpressionError
  | _ => .error .invalidExpressionError

/-- Apply a Lambda to each element of a list individually, collecting the
results in order (the spec's `map` loop). -/
def mapLam (ev : Expression → EnvStore → Nat → Res) (f : Expression) :
    List Expression → EnvStore → Except EvalError (List Expression × EnvStore)
  | [], s => .ok ([], s)
  | e :: es, s =>
    match applyLam ev f [e] s with
    | .error err => .error err
    | .ok (v, s1) =>
      match mapLam ev f es s1 with
      | .error err => .error err
      | .ok (vs, s2) => .ok (v :: vs, s2)

/-- The numeric payloads of a list of Number-headed expressions. -/
def numsOf : List Expression → Option (List ℚ)
  | [] => .some []
  | e :: es =>
    match e.m_head with
    | .number q => (numsOf es).map (q :: ·)
    | _ => .none

/-- Modelled from the spec: the built-in procedures its examples rely on
(`+`, `*`, `list`); their implementation lives outside `src/`. -/
def evalBuiltin (nm : String) (args : List Expression) : Except EvalError Expression :=
  if nm = "+" then
    match numsOf args with
    | .some qs => .ok (numE (qs.foldl (· + ·) 0))
    | .none => .error .invalidExpressionError
  else if nm = "*" then
    match numsOf args with
    | .some qs => .ok (numE (qs.foldl (· * ·) 1))
    | .none => .error .invalidExpressionError
  else if nm = "list" then .ok (listE args)
  else .error .notAProcedureError

/-- Modelled from the spec: `handle_lookup` — resolve a Symbol head via the
Environment chain; absent in the entire chain fails `UnboundSymbolError`. -/
def handle_lookup (head : Atom) (s : EnvStore) (h : Nat) : Res :=
  match head with
  | .symbol x =>
    match s.lookup h x with
    | .some v => .ok (v, s)
    | .none => .error .unboundSymbolError
  | _ => .error .invalidExpressionError

/-- Modelled from the spec: `handle_define` — evaluates tail[1] in the
current environment, binds tail[0]'s symbol name to the result in the
current frame, returns the bound value; `InvalidDefineError` if tail[0] is
not a Symbol, the tail size is not 2, or the name is a reserved keyword. -/
def handle_define (ev : Expression → EnvStore → Nat → Res)
    (e : Expression) (s : EnvStore) (h : Nat) : Res :=
  match e.m_tail with
  | [t0, t1] =>
    match t0.m_head with
    | .symbol x =>
      if x ∈ reservedKeywords then .error .invalidDefineError
      else
        match ev t1 s h with
        | .error err => .error err
        | .ok (v, s1) => .ok (v, s1.define h x v)
    | _ => .error .invalidDefineError
  | _ => .error .invalidDefineError

/-- Modelled from the spec: `handle_begin` — evaluates each tail element in
order, returns the last result; `EmptySequenceError` on an empty tail. -/
def handle_begin (ev : Expression → EnvStore → Nat → Res)
    (e : Expression) (s : EnvStore) (h : Nat) : Res :=
  match e.m_tail with
  | [] => .error .emptySequenceError
  | es =>
    match seqEval ev es s h with
    | .error err => .error err
    | .ok (vs, s1) =>
      match vs.getLast? with
      | .some v => .ok (v, s1)
      | .none => .error .emptySequenceError

/-- Modelled from the spec: `handle_lambda` — does **not** evaluate its
tail; validates tail[0] is a List of Symbols and tail[1] a body Expression;
constructs a Lambda-headed Expression capturing the current Environment
(the handle `h`) by shared reference. -/
def handle_lambda (e : Expression) (s : EnvStore) (h : Nat) : Res :=
  match e.m_tail with
  | [fs, body] =>
    match formalNames fs with
    | .some _ => .ok (.mk .lambdaM [fs, body] [] (.some h), s)
    | .none => .error .invalidExpressionError
  | _ => .error .invalidExpressionError

/-- Modelled from the spec: `handle_apply` — evaluates tail[0] to a Lambda
(`NotAProcedureError` otherwise) and tail[1] to a List of arguments, then
calls the lambda with that argument list. -/
def handle_apply (ev : Expression → EnvStore → Nat → Res)
    (e : Expression) (s : EnvStore) (h : Nat) : Res :=
  match e.m_tail with
  | [t0, t1] =>
    match ev t0 s h with
    | .error err => .error err
    | .ok (f, s1) =>
      match f.m_head with
      | .lambdaM =>
        match ev t1 s1 h with
        | .error err => .error err
        | .ok (l, s2) =>
          match l.m_head with
          | .listM => applyLam ev f l.m_tail s2
          | _ => .error .invalidExpressionError
      | _ => .error .notAProcedureError
  | _ => .error .arityError

/-- Modelled from the spec: `handle_map` — evaluates tail[0] to a Lambda
and tail[1] to a List; `ArityError` if the lambda's formal-parameter count
is not 1; otherwise applies the lambda to each element individually and
collects the results into a new List preserving order. -/
def handle_map (ev : Expression → EnvStore → Nat → Res)
    (e : Expression) (s : EnvStore) (h : Nat) : Res :=
  match e.m_tail with
  | [t0, t1] =>
    match ev t0 s h with
    | .error err => .error err
    | .ok (f, s1) =>
      match f.m_head with
      | .lambdaM =>
        match formalsOf f with
        | .some ns =>
          if ns.length = 1 then
            match ev t1 s1 h with
            | .error err => .error err
            | .ok (l, s2) =>
              match l.m_head with
              | .listM =>
                match mapLam ev f l.m_tail s2 with
                | .error err => .error err
                | .ok (vs, s3) => .ok (listE vs, s3)
              | _ => .error .invalidExpressionError
          else .error .arityError
        | .none => .error .invalidExpressionError
      | _ => .error .notAProcedureError
  | _ => .error .arityError

/-- Rebuild an Expression with one property added/overwritten; head, tail
and captured environment are untouched. -/
def setProp (e : Expression) (k : String) (v : Expression) : Expression :=
  .mk e.m_head e.m_tail ((k, v) :: e.propertymap.filter (fun p => p.1 ≠ k)) e.capturedEnv

/-- Modelled from the spec: the `set-property` handler — argument count
fixed at 3 (`ArityError` otherwise); evaluates the target (first tail
element), the property name (second, must be a String) and the value
(third), and returns a copy of the target with the property set, leaving
the original expression and its binding untouched. -/
def set_property (ev : Expression → EnvStore → Nat → Res)
    (e : Expression) (s : EnvStore) (h : Nat) : Res :=
  match e.m_tail with
  | [t0, t1, t2] =>
    match ev t0 s h with
    | .error err => .error err
    | .ok (target, s1) =>
      match ev t1 s1 h with
      | .error err => .error err
      | .ok (k, s2) =>
        match k.m_head with
        | .str key =>
          match ev t2 s2 h with
          | .error err => .error err
          | .ok (v, s3) => .ok (setProp target key v, s3)
        | _ => .error .invalidExpressionError
  | _ => .error .arityError

/-- Modelled from the spec: the `get-property` handler — argument count
fixed at 2 (`ArityError` otherwise); evaluates the target (first tail
element) and the property name (second, must be a String), and returns the
named property of the target, or a NoneType Expression when absent. -/
def get_property (ev : Expression → EnvStore → Nat → Res)
    (e : Expression) (s : EnvStore) (h : Nat) : Res :=
  match e.m_tail with
  | [t0, t1] =>
    match ev t0 s h with
    | .error err => .error err
    | .ok (target, s1) =>
      match ev t1 s1 h with
      | .error err => .error err
      | .ok (k, s2) =>
        match k.m_head with
        | .str key => .ok ((assocFind key target.propertymap).getD noneE, s2)
        | _ => .error .invalidExpressionError
  | _ => .error .arityError

/-- Modelled from the spec: `Expression::getSize` — read the `size`
property (a `double` per the header), falling back to the documented
default constant `P` when the property is absent or not a Number; never
fails. -/
def Expression.getSize (e : Expression) : ℚ :=
  match assocFind "size" e.propertymap with
  | .some v =>
    match v.m_head with
    | .number q => q
    | _ => P
  | .none => P

/-- Modelled from the spec: `Expression::getThickness` — read the
`thickness` property, falling back to the default thickness-like constant
`C`; never fails. -/
def Expression.getThickness (e : Expression) : ℚ :=
  match assocFind "thickness" e.propertymap with
  | .some v =>
    match v.m_head with
    | .number q => q
    | _ => C
  | .none => C

/-- Modelled from the spec: `Expression::getTextScale` — read the
`text-scale` property, falling back to the default constant `D`; never
fails. -/
def Expression.getTextScale (e : Expression) : ℚ :=
  match assocFind "text-scale" e.propertymap with
  | .some v =>
    match v.m_head with
    | .number q => q
    | _ => D
  | .none => D

/-- Modelled from the spec: `Expression::getTextRotation` — read the
`text-rotation` property, falling back to the default constant `D`; never
fails. -/
def Expression.getTextRotation (e : Expression) : ℚ :=
  match assocFind "text-rotation" e.propertymap with
  | .some v =>
    match v.m_head with
    | .number q => q
    | _ => D
  | .none => D

/-- Modelled from the spec: `Expression::getPosition` — read the `position`
property (an Expression per the header), falling back to a default point
built from the geometry constants `A` and `B`; never fails. -/
def Expression.getPosition (e : Expression) : Expression :=
  match assocFind "position" e.propertymap with
  | .some v => v
  | .none => listE [numE A, numE B]

/-- A 2-element List of Numbers (an (x, y) pair in data space). -/
def pairE (x y : ℚ) : Expression := listE [numE x, numE y]

/-- Read an (x, y) pair from a 2-element List of Numbers. -/
def pairOf (e : Expression) : Option (ℚ × ℚ) :=
  match e.m_head, e.m_tail with
  | .listM, [a, b] =>
    match a.m_head, b.m_head with
    | .number x, .number y => .some (x, y)
    | _, _ => .none
  | _, _ => .none

/-- Read a list of (x, y) pairs. -/
def pairsOf : List Expression → Option (List (ℚ × ℚ))
  | [] => .some []
  | e :: es =>
    match pairOf e with
    | .some p => (pairsOf es).map (p :: ·)
    | .none => .none

/-- Modelled from the spec: a point primitive — head marker `point`, with
`position` set to the data pair and `size` defaulting to `P`. -/
def makePoint (x y : ℚ) : Expression :=
  .mk (.symbol "point") [] [("position", pairE x y), ("size", numE P)] .none

/-- Modelled from the spec: a line primitive connecting two points — head
marker `line`, with the default thickness `C`. -/
def makeLine (p q : ℚ × ℚ) : Expression :=
  .mk (.symbol "line") [pairE p.1 p.2, pairE q.1 q.2] [("thickness", numE C)] .none

/-- Modelled from the spec: a text primitive — head marker `text` with the
label content as a String child and its `position` property. -/
def makeText (txt : String) (x y : ℚ) : Expression :=
  .mk (.symbol "text") [strE txt] [("position", pairE x y)] .none

/-- `Expression::isPoint`: classify by the head marker. -/
def Expression.isPoint (e : Expression) : Bool := e.m_head = .symbol "point"

/-- `Expression::isLine`: classify by the head marker. -/
def Expression.isLine (e : Expression) : Bool := e.m_head = .symbol "line"

/-- `Expression::isText`: classify by the head marker. -/
def Expression.isText (e : Expression) : Bool := e.m_head = .symbol "text"

/-- Least x-coordinate of a sample list (0 for an empty list). -/
def minX : List (ℚ × ℚ) → ℚ
  | [] => 0
  | p :: ps => ps.foldl (fun m q => min m q.1) p.1

/-- Greatest x-coordinate of a sample list (0 for an empty list). -/
def maxX : List (ℚ × ℚ) → ℚ
  | [] => 0
  | p :: ps => ps.foldl (fun m q => max m q.1) p.1

/-- Least y-coordinate of a sample list (0 for an empty list). -/
def minY : List (ℚ × ℚ) → ℚ
  | [] => 0
  | p :: ps => ps.foldl (fun m q => min m q.2) p.2

/-- Greatest y-coordinate of a sample list (0 for an empty list). -/
def maxY : List (ℚ × ℚ) → ℚ
  | [] => 0
  | p :: ps => ps.foldl (fun m q => max m q.2) p.2

/-- Modelled from the spec: the axis/bounds label text primitives shared by
both plot compilers (one label per data-space bound, positioned at the
bound; the abstract-canvas scaling is left free by the spec and modelled as
the identity, which is deterministic). -/
def boundsTexts (pts : List (ℚ × ℚ)) : List Expression :=
  [makeText "xmin" (minX pts) (minY pts),
   makeText "xmax" (maxX pts) (minY pts),
   makeText "ymin" (minX pts) (minY pts),
   makeText "ymax" (minX pts) (maxY pts)]

/-- The point primitives of a discrete plot, one per data pair, in order. -/
def pointsOf (pts : List (ℚ × ℚ)) : List Expression :=
  pts.map (fun p => makePoint p.1 p.2)

/-- The line primitives connecting consecutive samples, in order. -/
def linesOf (pts : List (ℚ × ℚ)) : List Expression :=
  (pts.zip pts.tail).map (fun pq => makeLine pq.1 pq.2)

/-- Modelled from the spec: `discrete_plot` — the evaluated first argument
is a List of (x, y) pairs; the output is a List Expression holding one
point primitive per data pair (with `position` set to the pair) followed by
the bounds label texts.  An optional options List may follow the data. -/
def discrete_plot (ev : Expression → EnvStore → Nat → Res)
    (e : Expression) (s : EnvStore) (h : Nat) : Res :=
  match e.m_tail with
  | [t0] | [t0, _] =>
    match ev t0 s h with
    | .error err => .error err
    | .ok (d, s1) =>
      match d.m_head with
      | .listM =>
        match pairsOf d.m_tail with
        | .some pts => .ok (listE (pointsOf pts ++ boundsTexts pts), s1)
        | .none => .error .invalidExpressionError
      | _ => .error .invalidExpressionError
  | _ => .error .arityError

/-- The default sample count of `continuous_plot` (the header's constant
`N = 20.0`, used as a count). -/
def sampleCount : Nat := 20

/-- The `n` evenly spaced sample abscissae across `[lo, hi]`
(endpoints included). -/
def samplePoints (lo hi : ℚ) (n : Nat) : List ℚ :=
  (List.range n).map (fun i => lo + (hi - lo) * i / ((n : ℚ) - 1))

/-- Modelled from the spec: the continuous-plot sampling loop — apply the
lambda to each abscissa in turn, collecting (x, f x) samples.  Following
the spec's design note on `global_status_flag`, the flag is consulted at
each sampling iteration and interrupts the evaluation when set. -/
def sampleLam (flag : Bool) (ev : Expression → EnvStore → Nat → Res)
    (f : Expression) :
    List ℚ → EnvStore → Except EvalError (List (ℚ × ℚ) × EnvStore)
  | [], s => .ok ([], s)
  | x :: xs, s =>
    match flag with
    | true => .error .cancelledError
    | false =>
      match applyLam ev f [numE x] s with
      | .error err => .error err
      | .ok (r, s1) =>
        match r.m_head with
        | .number y =>
          match sampleLam flag ev f xs s1 with
          | .error err => .error err
          | .ok (ps, s2) => .ok ((x, y) :: ps, s2)
        | _ => .error .invalidExpressionError

/-- Modelled from the spec: `continuous_plot` — evaluates tail[0] to a
Lambda (`NotAProcedureError` otherwise) and tail[1] to a numeric domain
`[lo, hi]` (`InvalidDomainError` if lo ≥ hi); samples the lambda at
`sampleCount` evenly spaced points across the domain via `apply` semantics,
connects consecutive samples with line primitives and appends the same
bounds label texts as `discrete_plot`. -/
def continuous_plot (flag : Bool) (ev : Expression → EnvStore → Nat → Res)
    (e : Expression) (s : EnvStore) (h : Nat) : Res :=
  match e.m_tail with
  | [t0, t1] | [t0, t1, _] =>
    match ev t0 s h with
    | .error err => .error err
    | .ok (f, s1) =>
      match f.m_head with
      | .lambdaM =>
        match ev t1 s1 h with
        | .error err => .error err
        | .ok (d, s2) =>
          match pairOf d with
          | .some lohi =>
            if lohi.1 < lohi.2 then
              match sampleLam flag ev f (samplePoints lohi.1 lohi.2 sampleCount) s2 with
              | .error err => .error err
              | .ok (pts, s3) => .ok (listE (linesOf pts ++ boundsTexts pts), s3)
            else .error .invalidDomainError
          | .none => .error .invalidExpressionError
      | _ => .error .notAProcedureError
  | _ => .error .arityError

/-- The general call form for a non-keyword Symbol head with arguments:
evaluate the children eagerly left-to-right in the caller's environment,
resolve the head symbol, and apply the resulting Lambda closure or built-in
procedure. -/
def generalCall (ev : Expression → EnvStore → Nat → Res)
    (e : Expression) (s : EnvStore) (h : Nat) : Res :=
  match e.m_head with
  | .symbol x =>
    match seqEval ev e.m_tail s h with
    | .error err => .error err
    | .ok (args, s1) =>
      match s1.lookup h x with
      | .none => .error .unboundSymbolError
      | .some f =>
        match f.m_head with
        | .lambdaM => applyLam ev f args s1
        | .procM nm =>
          match evalBuiltin nm args with
          | .error err => .error err
          | .ok r => .ok (r, s1)
        | _ => .error .notAProcedureError
  | _ => .error .invalidExpressionError

/-- Modelled from the spec: `Expression::eval` — post-order evaluation
dispatching on the head Atom's kind and, for Symbol heads, on the reserved
special-form names; fuel bounds the recursion depth (`RecursionLimitError`
on exhaustion) and `flag` models `global_status_flag`. -/
def eval (flag : Bool) : Nat → Expression → EnvStore → Nat → Res
  | 0, _, _, _ => .error .recursionLimitError
  | fuel + 1, e, s, h =>
    match e.m_head with
    | .number _ => .ok (e, s)
    | .complex _ _ => .ok (e, s)
    | .str _ => .ok (e, s)
    | .symbol x =>
      if x = "define" then handle_define (eval flag fuel) e s h
      else if x = "begin" then handle_begin (eval flag fuel) e s h
      else if x = "lambda" then handle_lambda e s h
      else if x = "apply" then handle_apply (eval flag fuel) e s h
      else if x = "map" then handle_map (eval flag fuel) e s h
      else if x = "set-property" then set_property (eval flag fuel) e s h
      else if x = "get-property" then get_property (eval flag fuel) e s h
      else if x = "discrete-plot" then discrete_plot (eval flag fuel) e s h
      else if x = "continuous-plot" then continuous_plot flag (eval flag fuel) e s h
      else if e.m_tail.isEmpty then handle_lookup e.m_head s h
      else generalCall (eval flag fuel) e s h
    | _ => .error .invalidExpressionError

/-- Modelled from the spec: the global/root frame, pre-populated with the
built-in procedures the spec's examples use. -/
def initFrame : Frame :=
  ⟨[("+", procE "+"), ("*", procE "*"), ("list", procE "list")], .none⟩

/-- The initial arena: just the global frame, at handle 0. -/
def initStore : EnvStore := ⟨[initFrame]⟩

/-- Evaluate a program (a list of top-level forms) in order in the global
environment, with the status flag clear, returning the numeric payload of
the last form's value (diagnostic view used by concrete test theorems). -/
def runNum (prog : List Expression) : Option ℚ :=
  match seqEval (eval false 1000) prog initStore 0 with
  | .ok (vs, _) =>
    match vs.getLast? with
    | .some v =>
      match v.m_head with
      | .number q => .some q
      | _ => .none
    | .none => .none
  | .error _ => .none

/-- Evaluate one expression in the global environment with the flag clear
and return the numeric payloads of the resulting List's elements. -/
def runList (e : Expression) : Option (List ℚ) :=
  match eval false 1000 e initStore 0 with
  | .ok (v, _) =>
    match v.m_head with
    | .listM => numsOf v.m_tail
    | _ => .none
  | .error _ => .none

/-- Evaluate one expression under the given status flag and count the line
and text primitives of the resulting List. -/
def plotCounts (flag : Bool) (e : Expression) : Option (Nat × Nat) :=
  match eval flag 1000 e initStore 0 with
  | .ok (v, _) =>
    match v.m_head with
    | .listM =>
      .some (v.m_tail.countP Expression.isLine, v.m_tail.countP Expression.isText)
    | _ => .none
  | .error _ => .none

/-- Evaluate one expression under the given status flag and report the
error it fails with, if any. -/
def plotStatus (flag : Bool) (e : Expression) : Option EvalError :=
  match eval flag 1000 e initStore 0 with
  | .ok _ => .none
  | .error err => .some err

/-- The spec's closure-capture test program:
`(define make-adder (lambda (n) (lambda (x) (+ x n))))`,
`(define add5 (apply make-adder (list 5)))`, `(apply add5 (list 10))`. -/
def makeAdderProg : List Expression :=
  [callE "define" [symE "make-adder",
     callE "lambda" [listE [symE "n"],
       callE "lambda" [listE [symE "x"], callE "+" [symE "x", symE "n"]]]],
   callE "define" [symE "add5",
     callE "apply" [symE "make-adder", callE "list" [numE 5]]],
   callE "apply" [symE "add5", callE "list" [numE 10]]]

/-- A shared-reference capture test: the lambda's free variable `y` is
defined in the global frame only *after* the closure is created, so it can
resolve only if the closure shares the live defining frame rather than a
snapshot copy:
`(define f (lambda (z) y))`, `(define y 42)`, `(apply f (list 0))`. -/
def captureAfterProg : List Expression :=
  [callE "define" [symE "f", callE "lambda" [listE [symE "z"], symE "y"]],
   callE "define" [symE "y", numE 42],
   callE "apply" [symE "f", callE "list" [numE 0]]]

/-- The spec's map example: `(map (lambda (x) (* x x)) (list 1 2 3))`. -/
def mapSquaresProg : Expression :=
  callE "map" [callE "lambda" [listE [symE "x"], callE "*" [symE "x", symE "x"]],
               callE "list" [numE 1, numE 2, numE 3]]

/-- A one-argument identity lambda. -/
def identLam : Expression := callE "lambda" [listE [symE "x"], symE "x"]

/-- The spec's continuous-plot example:
`(continuous-plot (lambda (x) x) (list 0 10))`. -/
def progPlot : Expression :=
  callE "continuous-plot" [identLam, callE "list" [numE 0, numE 10]]

/-- A discrete-plot example over the pairs `((0 0) (1 1) (2 4))`. -/
def progDisc : Expression :=
  callE "discrete-plot" [callE "list" [callE "list" [numE 0, numE 0],
    callE "list" [numE 1, numE 1], callE "list" [numE 2, numE 4]]]

/-- Recognize the non-symbol literal heads (Number, Complex, String). -/
def isLiteralAtom : Atom → Bool
  | .number _ => true
  | .complex _ _ => true
  | .str _ => true
  | _ => false

/-! ## Theorems -/

/-- C2: for every literal Number, Complex or String expression `v` and
every environment (any store, frame handle, flag and positive fuel),
`eval v` returns `v` itself, unevaluated, with the store untouched; since
the result is `v` again, re-evaluating it any number of times keeps
yielding the same value (idempotence on non-symbol literals). -/
theorem claim2_literal_identity :
    ∀ (flag : Bool) (fuel : Nat) (e : Expression) (s : EnvStore) (h : Nat),
      isLiteralAtom e.m_head = true →
      eval flag (fuel + 1) e s h = .ok (e, s) := by
  intro flag fuel e s h hlit
  obtain ⟨hd, tl, pr, ce⟩ := e
  cases hd <;> simp_all [eval, isLiteralAtom, Expression.m_head]

/-- Witness for C2 at the Number literal `5`. -/
theorem claim2_witness :
    isLiteralAtom (numE 5).m_head = true ∧
      eval false 1 (numE 5) initStore 0 = .ok (numE 5, initStore) :=
  ⟨rfl, claim2_literal_identity false 0 (numE 5) initStore 0 rfl⟩

/-- C6: every property getter is total and falls back to a documented
default built from the header's constants when the property is absent —
`getSize` to `P`, `getThickness` to `C`, `getTextScale` and
`getTextRotation` to `D`, and `getPosition` to the point built from `A`
and `B`; and after `set-property` stores `"size" ↦ 7`, `getSize` reads
`7`. -/
theorem claim6_getter_defaults :
    (∀ e : Expression, assocFind "size" e.propertymap = .none → e.getSize = P) ∧
    (∀ e : Expression, assocFind "thickness" e.propertymap = .none → e.getThickness = C) ∧
    (∀ e : Expression, assocFind "text-scale" e.propertymap = .none → e.getTextScale = D) ∧
    (∀ e : Expression, assocFind "text-rotation" e.propertymap = .none → e.getTextRotation = D) ∧
    (∀ e : Expression, assocFind "position" e.propertymap = .none →
      e.getPosition = listE [numE A, numE B]) ∧
    (∀ e : Expression, (setProp e "size" (numE 7)).getSize = 7) := by
  refine ⟨?_, ?_, ?_, ?_, ?_, ?_⟩
  · intro e h
    simp [Expression.getSize, h]
  · intro e h
    simp [Expression.getThickness, h]
  · intro e h
    simp [Expression.getTextScale, h]
  · intro e h
    simp [Expression.getTextRotation, h]
  · intro e h
    simp [Expression.getPosition, h]
  · intro e
    simp [Expression.getSize, setProp, Expression.propertymap, assocFind, numE,
      Expression.m_head]

/-- Witness for C6 at an Expression with no properties set. -/
theorem claim6_witness :
    assocFind "size" noneE.propertymap = .none ∧ noneE.getSize = P :=
  ⟨rfl, claim6_getter_defaults.1 noneE rfl⟩

/-- C10: the member `tail()` returns null (`Option.none`) exactly when the
tail is empty, and otherwise a pointer to the **last** tail element. -/
theorem claim10_tail_last :
    (∀ e : Expression, e.m_tail = [] → e.tail = .none) ∧
    (∀ (e : Expression) (xs : List Expression) (x : Expression),
      e.m_tail = xs ++ [x] → e.tail = .some x) := by
  constructor
  · intro e h
    simp [Expression.tail, h]
  · intro e xs x h
    simp [Expression.tail, h]

/-- Witness for C10 on a one-element tail. -/
theorem claim10_witness :
    Expression.tail (listE [numE 1]) = .some (numE 1) :=
  claim10_tail_last.2 (listE [numE 1]) [] (numE 1) rfl

/-- C1: `handle_lambda` does not evaluate its tail — for any well-formed
formals list the resulting Lambda-headed Expression carries the formals and
body verbatim and captures the current Environment handle, with the store
untouched; the spec's make-adder/add5 closure example returns 15 even
though the closure is invoked after its defining call has returned; and a
free variable bound in the shared defining frame only *after* closure
creation still resolves (reference, not snapshot, capture). -/
theorem claim1_lambda_closure :
    (∀ (flag : Bool) (fuel : Nat) (s : EnvStore) (h : Nat)
       (fs body : Expression) (pr : List (String × Expression)) (ce : Option Nat)
       (ns : List String),
      formalNames fs = .some ns →
      eval flag (fuel + 1) (.mk (.symbol "lambda") [fs, body] pr ce) s h =
        .ok (.mk .lambdaM [fs, body] [] (.some h), s)) ∧
    runNum makeAdderProg = .some 15 ∧
    runNum captureAfterProg = .some 42 := by
  refine ⟨?_, ?_, ?_⟩
  · intro flag fuel s h fs body pr ce ns hns
    simp [eval, Expression.m_head, Expression.m_tail, handle_lambda, hns]
  · with_unfolding_all rfl
  · with_unfolding_all rfl

/-- Witness for C1: creating `(lambda (x) x)` in the global frame. -/
theorem claim1_witness :
    eval false 1 (.mk (.symbol "lambda") [listE [symE "x"], symE "x"] [] .none)
        initStore 0 =
      .ok (.mk .lambdaM [listE [symE "x"], symE "x"] [] (.some 0), initStore) :=
  claim1_lambda_closure.1 false 0 initStore 0 (listE [symE "x"]) (symE "x") [] .none
    ["x"] rfl

/-- Association search distributes over append, preferring the left list
(first match wins). -/
theorem assocFind_append (x : String) (l₁ l₂ : List (String × Expression)) :
    assocFind x (l₁ ++ l₂) = (assocFind x l₁).or (assocFind x l₂) := by
  induction l₁ with
  | nil => simp [assocFind]
  | cons p ps ih =>
    by_cases hp : p.1 = x <;> simp [assocFind, hp, ih]

/-- Chain lookup is exactly first-match search of the concatenated frame
bindings, current frame first. -/
theorem lookupFuel_eq_chain (s : EnvStore) (x : String) :
    ∀ (fuel h : Nat),
      lookupFuel s x fuel h = assocFind x (chainBindings s fuel h) := by
  intro fuel
  induction fuel with
  | zero => intro h; simp [lookupFuel, chainBindings, assocFind]
  | succ n ih =>
    intro h
    simp only [lookupFuel, chainBindings]
    cases hf : s.frames[h]? with
    | none => simp [assocFind]
    | some fr =>
      rw [assocFind_append]
      cases hb : assocFind x fr.bindings with
      | some v => simp [hb]
      | none =>
        cases hp : fr.parent with
        | none => simp [hb, hp, assocFind]
        | some p => simp [hb, hp, ih p]

/-- C3: `lookup` resolves a symbol by searching the current frame, then
each parent in order, returning the first binding found (it equals
first-match search of the chain's concatenated bindings); and evaluating a
non-keyword symbol absent from the entire chain fails with
`UnboundSymbolError`. -/
theorem claim3_lookup_chain :
    (∀ (s : EnvStore) (h : Nat) (x : String),
      s.lookup h x = assocFind x (chainBindings s (h + 1) h)) ∧
    (∀ (flag : Bool) (fuel : Nat) (s : EnvStore) (h : Nat) (x : String),
      x ∉ reservedKeywords → s.lookup h x = .none →
      eval flag (fuel + 1) (symE x) s h = .error .unboundSymbolError) := by
  constructor
  · intro s h x
    exact lookupFuel_eq_chain s x (h + 1) h
  · intro flag fuel s h x hres hnone
    simp [reservedKeywords] at hres
    obtain ⟨h1, h2, h3, h4, h5, h6, h7, h8, h9⟩ := hres
    simp [eval, symE, Expression.m_head, Expression.m_tail, h1, h2, h3, h4, h5,
      h6, h7, h8, h9, handle_lookup, hnone]

/-- Witness for C3: the symbol `q` is unbound in the global frame. -/
theorem claim3_witness :
    "q" ∉ reservedKeywords ∧ EnvStore.lookup initStore 0 "q" = .none ∧
      eval false 1 (symE "q") initStore 0 = .error .unboundSymbolError :=
  ⟨by decide, rfl, claim3_lookup_chain.2 false 0 initStore 0 "q" (by decide) rfl⟩

/-- C4: `handle_define` evaluates tail[1] in the current environment and
binds tail[0]'s symbol name to the result in the current frame, returning
the bound value; the binding lands in the current frame only (after a
define, lookup at the current handle finds the new value — overwriting any
earlier same-frame binding and shadowing ancestors — while every other
frame of the arena is untouched); and it fails with `InvalidDefineError`
when tail[0] is not a Symbol, when the tail size is not 2, or when the
name is a reserved keyword. -/
theorem claim4_define :
    (∀ (ev : Expression → EnvStore → Nat → Res) (e : Expression) (s : EnvStore)
       (h : Nat) (t0 t1 : Expression) (x : String) (v : Expression) (s1 : EnvStore),
      e.m_tail = [t0, t1] → t0.m_head = .symbol x → x ∉ reservedKeywords →
      ev t1 s h = .ok (v, s1) →
      handle_define ev e s h = .ok (v, s1.define h x v)) ∧
    (∀ (s : EnvStore) (h : Nat) (fr : Frame) (x : String) (v : Expression),
      s.frames[h]? = .some fr → (s.define h x v).lookup h x = .some v) ∧
    (∀ (s : EnvStore) (h j : Nat) (x : String) (v : Expression),
      j ≠ h → (s.define h x v).frames[j]? = s.frames[j]?) ∧
    (∀ (ev : Expression → EnvStore → Nat → Res) (e : Expression) (s : EnvStore)
       (h : Nat) (t0 t1 : Expression),
      e.m_tail = [t0, t1] → (∀ x, t0.m_head ≠ .symbol x) →
      handle_define ev e s h = .error .invalidDefineError) ∧
    (∀ (ev : Expression → EnvStore → Nat → Res) (e : Expression) (s : EnvStore)
       (h : Nat),
      e.m_tail.length ≠ 2 → handle_define ev e s h = .error .invalidDefineError) ∧
    (∀ (ev : Expression → EnvStore → Nat → Res) (e : Expression) (s : EnvStore)
       (h : Nat) (t0 t1 : Expression) (x : String),
      e.m_tail = [t0, t1] → t0.m_head = .symbol x → x ∈ reservedKeywords →
      handle_define ev e s h = .error .invalidDefineError) := by
  refine ⟨?_, ?_, ?_, ?_, ?_, ?_⟩
  · intro ev e s h t0 t1 x v s1 htl hhd hx hev
    simp [handle_define, htl, hhd, hx, hev]
  · intro s h fr x v hf
    have hlt : h < s.frames.length := by
      rcases List.getElem?_eq_some_iff.mp hf with ⟨hl, _⟩
      exact hl
    simp [EnvStore.define, hf, EnvStore.lookup, lookupFuel,
      List.getElem?_set_self (by simpa using hlt), assocFind]
  · intro s h j x v hj
    cases hf : s.frames[h]? with
    | none => simp [EnvStore.define, hf]
    | some fr => simp [EnvStore.define, hf, List.getElem?_set_ne (Ne.symm hj)]
  · intro ev e s h t0 t1 htl hhd
    cases hh : t0.m_head <;>
      simp_all [handle_define]
  · intro ev e s h hlen
    rcases htl : e.m_tail with _ | ⟨a, _ | ⟨b, _ | ⟨c, rest⟩⟩⟩ <;>
      simp_all [handle_define]
  · intro ev e s h t0 t1 x htl hhd hx
    simp [handle_define, htl, hhd, hx]

/-- Witness for C4: `(define a 3)` in the global frame binds `a ↦ 3` and
returns 3. -/
theorem claim4_witness :
    handle_define (eval false 5) (callE "define" [symE "a", numE 3]) initStore 0 =
      .ok (numE 3, (initStore.define 0 "a" (numE 3))) :=
  claim4_define.1 (eval false 5) (callE "define" [symE "a", numE 3]) initStore 0
    (symE "a") (numE 3) "a" (numE 3) initStore rfl rfl (by decide) rfl

/-- A successful `mapLam` run yields exactly one result per input element. -/
theorem mapLam_length (ev : Expression → EnvStore → Nat → Res) (f : Expression) :
    ∀ (xs : List Expression) (s : EnvStore) (vs : List Expression) (s' : EnvStore),
      mapLam ev f xs s = .ok (vs, s') → vs.length = xs.length := by
  intro xs
  induction xs with
  | nil =>
    intro s vs s' h
    simp only [mapLam] at h
    cases h
    rfl
  | cons e es ih =>
    intro s vs s' h
    simp only [mapLam] at h
    cases ha : applyLam ev f [e] s with
    | error err => rw [ha] at h; simp at h
    | ok p =>
      obtain ⟨v, s1⟩ := p
      rw [ha] at h
      dsimp only at h
      cases hm : mapLam ev f es s1 with
      | error err => rw [hm] at h; simp at h
      | ok q =>
        obtain ⟨vs2, s2⟩ := q
        rw [hm] at h
        dsimp only at h
        cases h
        simpa using ih s1 vs2 _ hm

/-- C5: `handle_map` fails with `ArityError` whenever tail[0] evaluates to
a Lambda whose formal-parameter count is not 1; on a 1-ary lambda and a
List it applies the lambda to each element individually and collects the
results into a new List with exactly one result per input element, in input
order; and the spec's example — mapping `(lambda (x) (* x x))` over
`(1 2 3)` — returns `(1 4 9)`. -/
theorem claim5_map :
    (∀ (ev : Expression → EnvStore → Nat → Res) (e : Expression) (s : EnvStore)
       (h : Nat) (t0 t1 f : Expression) (s1 : EnvStore) (ns : List String),
      e.m_tail = [t0, t1] → ev t0 s h = .ok (f, s1) → f.m_head = .lambdaM →
      formalsOf f = .some ns → ns.length ≠ 1 →
      handle_map ev e s h = .error .arityError) ∧
    (∀ (ev : Expression → EnvStore → Nat → Res) (e : Expression) (s : EnvStore)
       (h : Nat) (t0 t1 f : Expression) (s1 : EnvStore) (ns : List String)
       (l : Expression) (s2 : EnvStore) (vs : List Expression) (s3 : EnvStore),
      e.m_tail = [t0, t1] → ev t0 s h = .ok (f, s1) → f.m_head = .lambdaM →
      formalsOf f = .some ns → ns.length = 1 →
      ev t1 s1 h = .ok (l, s2) → l.m_head = .listM →
      mapLam ev f l.m_tail s2 = .ok (vs, s3) →
      handle_map ev e s h = .ok (listE vs, s3) ∧ vs.length = l.m_tail.length) ∧
    runList mapSquaresProg = .some [1, 4, 9] := by
  refine ⟨?_, ?_, ?_⟩
  · intro ev e s h t0 t1 f s1 ns htl hev hhd hns hlen
    simp [handle_map, htl, hev, hhd, hns, hlen]
  · intro ev e s h t0 t1 f s1 ns l s2 vs s3 htl hev hhd hns hlen hevl hl hm
    refine ⟨?_, mapLam_length ev f l.m_tail s2 vs s3 hm⟩
    simp [handle_map, htl, hev, hhd, hns, hlen, hevl, hl, hm]
  · with_unfolding_all rfl

/-- Witness for C5: mapping a 2-ary lambda fails with `ArityError`. -/
theorem claim5_witness :
    handle_map (eval false 20)
        (callE "map" [callE "lambda" [listE [symE "x", symE "y"], symE "x"],
           callE "list" [numE 1]]) initStore 0 =
      .error .arityError :=
  claim5_map.1 (eval false 20)
    (callE "map" [callE "lambda" [listE [symE "x", symE "y"], symE "x"],
       callE "list" [numE 1]]) initStore 0
    (callE "lambda" [listE [symE "x", symE "y"], symE "x"])
    (callE "list" [numE 1])
    (.mk .lambdaM [listE [symE "x", symE "y"], symE "x"] [] (.some 0)) initStore
    ["x", "y"] rfl rfl rfl rfl (by decide)

/-- C7: `set-property` requires exactly 3 arguments and `get-property`
exactly 2, failing with `ArityError` otherwise; `set-property` evaluates
the first tail element (the target), uses the second as the property name
and the third as the value, and returns a *copy* of the target with the
property set — same head and tail, property map updated — while
`get-property` reads the named property of the evaluated target; and,
concretely, running `(set-property a "size" 7)` against a store binding
`a ↦ 3` returns the modified copy and leaves the store (hence the original
binding of `a`) completely unchanged. -/
theorem claim7_properties :
    (∀ (ev : Expression → EnvStore → Nat → Res) (e : Expression) (s : EnvStore)
       (h : Nat), e.m_tail.length ≠ 3 → set_property ev e s h = .error .arityError) ∧
    (∀ (ev : Expression → EnvStore → Nat → Res) (e : Expression) (s : EnvStore)
       (h : Nat), e.m_tail.length ≠ 2 → get_property ev e s h = .error .arityError) ∧
    (∀ (ev : Expression → EnvStore → Nat → Res) (e : Expression) (s : EnvStore)
       (h : Nat) (t0 t1 t2 target : Expression) (s1 : EnvStore) (k : Expression)
       (key : String) (s2 : EnvStore) (v : Expression) (s3 : EnvStore),
      e.m_tail = [t0, t1, t2] → ev t0 s h = .ok (target, s1) →
      ev t1 s1 h = .ok (k, s2) → k.m_head = .str key →
      ev t2 s2 h = .ok (v, s3) →
      set_property ev e s h = .ok (setProp target key v, s3) ∧
        (setProp target key v).m_head = target.m_head ∧
        (setProp target key v).m_tail = target.m_tail ∧
        assocFind key (setProp target key v).propertymap = .some v) ∧
    (∀ (ev : Expression → EnvStore → Nat → Res) (e : Expression) (s : EnvStore)
       (h : Nat) (t0 t1 target : Expression) (s1 : EnvStore) (k : Expression)
       (key : String) (s2 : EnvStore),
      e.m_tail = [t0, t1] → ev t0 s h = .ok (target, s1) →
      ev t1 s1 h = .ok (k, s2) → k.m_head = .str key →
      get_property ev e s h =
        .ok ((assocFind key target.propertymap).getD noneE, s2)) ∧
    eval false 10 (callE "set-property" [symE "a", strE "size", numE 7])
        (initStore.define 0 "a" (numE 3)) 0 =
      .ok (setProp (numE 3) "size" (numE 7), initStore.define 0 "a" (numE 3)) := by
  refine ⟨?_, ?_, ?_, ?_, ?_⟩
  · intro ev e s h hlen
    rcases htl : e.m_tail with _ | ⟨a, _ | ⟨b, _ | ⟨c, _ | ⟨d, rest⟩⟩⟩⟩ <;>
      simp_all [set_property]
  · intro ev e s h hlen
    rcases htl : e.m_tail with _ | ⟨a, _ | ⟨b, _ | ⟨c, rest⟩⟩⟩ <;>
      simp_all [get_property]
  · intro ev e s h t0 t1 t2 target s1 k key s2 v s3 htl hev0 hev1 hk hev2
    refine ⟨?_, rfl, rfl, ?_⟩
    · simp [set_property, htl, hev0, hev1, hk, hev2]
    · simp [setProp, Expression.propertymap, assocFind]
  · intro ev e s h t0 t1 target s1 k key s2 htl hev0 hev1 hk
    simp [get_property, htl, hev0, hev1, hk]
  · with_unfolding_all rfl

/-- Witness for C7: `set-property` with only two arguments fails with
`ArityError`. -/
theorem claim7_witness :
    set_property (eval false 10) (callE "set-property" [symE "a", strE "size"])
        initStore 0 =
      .error .arityError :=
  claim7_properties.1 (eval false 10)
    (callE "set-property" [symE "a", strE "size"]) initStore 0 (by decide)

/-- C8 counterexample: with identical arguments and environment, the
continuous-plot compilation succeeds when `global_status_flag` is clear but
is interrupted with `CancelledError` when it is set — the output is *not*
independent of the flag. -/
theorem claim8_counterexample :
    plotStatus true progPlot = .some .cancelledError ∧
      plotStatus false progPlot = .none ∧
      plotStatus true progPlot ≠ plotStatus false progPlot := by
  have h1 : plotStatus true progPlot = .some .cancelledError := by
    with_unfolding_all rfl
  have h2 : plotStatus false progPlot = .none := by
    with_unfolding_all rfl
  refine ⟨h1, h2, ?_⟩
  rw [h1, h2]
  simp

/-- C8 (amended): the plot compilers are deterministic functions of their
evaluated arguments, the environment and the `global_status_flag` state —
identical inputs with identical flag state give identical outputs; a
discrete-plot evaluation does not consult the flag (the same run under
both flag states agrees), and a clear flag lets the continuous compilation
complete. -/
theorem claim8_flag_determinism :
    (∀ (flag1 flag2 : Bool) (fuel : Nat) (e : Expression) (s : EnvStore) (h : Nat),
      flag1 = flag2 → eval flag1 fuel e s h = eval flag2 fuel e s h) ∧
    eval true 1000 progDisc initStore 0 = eval false 1000 progDisc initStore 0 ∧
    plotStatus false progPlot = .none := by
  refine ⟨?_, ?_, ?_⟩
  · intro f1 f2 fuel e s h hf
    rw [hf]
  · have ht : eval true 1000 progDisc initStore 0 =
        .ok (listE (pointsOf [(0, 0), (1, 1), (2, 4)] ++
          boundsTexts [(0, 0), (1, 1), (2, 4)]), initStore) := by
      with_unfolding_all rfl
    have hf : eval false 1000 progDisc initStore 0 =
        .ok (listE (pointsOf [(0, 0), (1, 1), (2, 4)] ++
          boundsTexts [(0, 0), (1, 1), (2, 4)]), initStore) := by
      with_unfolding_all rfl
    rw [ht, hf]
  · with_unfolding_all rfl

/-- Witness for C8's amended determinism statement. -/
theorem claim8_witness :
    eval true 3 (numE 1) initStore 0 = eval true 3 (numE 1) initStore 0 :=
  claim8_flag_determinism.1 true true 3 (numE 1) initStore 0 rfl

/-- A successful sampling run yields exactly one (x, y) sample per
abscissa. -/
theorem sampleLam_length (flag : Bool) (ev : Expression → EnvStore → Nat → Res)
    (f : Expression) :
    ∀ (xs : List ℚ) (s : EnvStore) (pts : List (ℚ × ℚ)) (s' : EnvStore),
      sampleLam flag ev f xs s = .ok (pts, s') → pts.length = xs.length := by
  cases flag with
  | true =>
    intro xs
    cases xs with
    | nil =>
      intro s pts s' h
      simp only [sampleLam] at h
      cases h
      rfl
    | cons x xs =>
      intro s pts s' h
      simp only [sampleLam] at h
      simp at h
  | false =>
    intro xs
    induction xs with
    | nil =>
      intro s pts s' h
      simp only [sampleLam] at h
      cases h
      rfl
    | cons x xs ih =>
      intro s pts s' h
      simp only [sampleLam] at h
      cases ha : applyLam ev f [numE x] s with
      | error err => rw [ha] at h; simp at h
      | ok p =>
        obtain ⟨r, s1⟩ := p
        rw [ha] at h
        dsimp only at h
        cases hr : r.m_head
        case number y =>
          rw [hr] at h
          dsimp only at h
          cases hm : sampleLam false ev f xs s1 with
          | error err => rw [hm] at h; simp at h
          | ok q =>
            obtain ⟨ps, s2⟩ := q
            rw [hm] at h
            dsimp only at h
            cases h
            simpa using ih s1 ps _ hm
        all_goals rw [hr] at h; simp at h

/-- Connecting consecutive samples yields one line segment fewer than there
are samples. -/
theorem linesOf_length (pts : List (ℚ × ℚ)) :
    (linesOf pts).length = pts.length - 1 := by
  simp [linesOf]

/-- Every element of `linesOf` is a line primitive. -/
theorem linesOf_all_isLine (pts : List (ℚ × ℚ)) :
    ∀ a ∈ linesOf pts, a.isLine = true := by
  intro a ha
  simp only [linesOf, List.mem_map] at ha
  obtain ⟨pq, _, rfl⟩ := ha
  rfl

/-- Line and text primitive counts of a compiled continuous plot. -/
theorem plot_prims_count (pts : List (ℚ × ℚ)) :
    (linesOf pts ++ boundsTexts pts).countP Expression.isLine = pts.length - 1 ∧
      (linesOf pts ++ boundsTexts pts).countP Expression.isText = 4 := by
  constructor
  · rw [List.countP_append]
    have h1 : (linesOf pts).countP Expression.isLine = (linesOf pts).length :=
      List.countP_eq_length.mpr (linesOf_all_isLine pts)
    have h2 : (boundsTexts pts).countP Expression.isLine = 0 := by
      simp [boundsTexts, List.countP_cons, makeText, Expression.isLine,
        Expression.m_head, List.countP_nil]
    rw [h1, h2, linesOf_length]
    omega
  · rw [List.countP_append]
    have h1 : (linesOf pts).countP Expression.isText = 0 := by
      rw [List.countP_eq_zero]
      intro a ha
      simp only [linesOf, List.mem_map] at ha
      obtain ⟨pq, _, rfl⟩ := ha
      simp [makeLine, Expression.isText, Expression.m_head]
    have h2 : (boundsTexts pts).countP Expression.isText = 4 := by
      simp [boundsTexts, List.countP_cons, makeText, Expression.isText,
        Expression.m_head, List.countP_nil]
    rw [h1, h2]

/-- C9: `continuous_plot` fails with `NotAProcedureError` when its first
argument does not evaluate to a Lambda and with `InvalidDomainError` when
the domain satisfies lo ≥ hi; otherwise it samples the lambda at
`sampleCount` (= the header's `N` = 20 by default) evenly spaced points
across the domain and connects consecutive samples, producing exactly
`sampleCount - 1` sample-derived line segments plus label text; on the
spec's example (domain [0, 10], N = 20) the compiled List holds exactly 19
line primitives and 4 label texts. -/
theorem claim9_continuous_plot :
    (∀ (flag : Bool) (ev : Expression → EnvStore → Nat → Res) (e : Expression)
       (s : EnvStore) (h : Nat) (t0 t1 g : Expression) (s1 : EnvStore),
      e.m_tail = [t0, t1] → ev t0 s h = .ok (g, s1) → g.m_head ≠ .lambdaM →
      continuous_plot flag ev e s h = .error .notAProcedureError) ∧
    (∀ (flag : Bool) (ev : Expression → EnvStore → Nat → Res) (e : Expression)
       (s : EnvStore) (h : Nat) (t0 t1 f : Expression) (s1 : EnvStore)
       (d : Expression) (s2 : EnvStore) (lo hi : ℚ),
      e.m_tail = [t0, t1] → ev t0 s h = .ok (f, s1) → f.m_head = .lambdaM →
      ev t1 s1 h = .ok (d, s2) → pairOf d = .some (lo, hi) → hi ≤ lo →
      continuous_plot flag ev e s h = .error .invalidDomainError) ∧
    (∀ (flag : Bool) (ev : Expression → EnvStore → Nat → Res) (e : Expression)
       (s : EnvStore) (h : Nat) (t0 t1 f : Expression) (s1 : EnvStore)
       (d : Expression) (s2 : EnvStore) (lo hi : ℚ) (pts : List (ℚ × ℚ))
       (s3 : EnvStore),
      e.m_tail = [t0, t1] → ev t0 s h = .ok (f, s1) → f.m_head = .lambdaM →
      ev t1 s1 h = .ok (d, s2) → pairOf d = .some (lo, hi) → lo < hi →
      sampleLam flag ev f (samplePoints lo hi sampleCount) s2 = .ok (pts, s3) →
      continuous_plot flag ev e s h =
          .ok (listE (linesOf pts ++ boundsTexts pts), s3) ∧
        pts.length = sampleCount ∧
        (linesOf pts ++ boundsTexts pts).countP Expression.isLine =
          sampleCount - 1 ∧
        0 < (linesOf pts ++ boundsTexts pts).countP Expression.isText) ∧
    (sampleCount : ℚ) = N ∧
    plotCounts false progPlot = .some (19, 4) := by
  refine ⟨?_, ?_, ?_, ?_, ?_⟩
  · intro flag ev e s h t0 t1 g s1 htl hev hg
    cases hgh : g.m_head <;> simp_all [continuous_plot]
  · intro flag ev e s h t0 t1 f s1 d s2 lo hi htl hev0 hhd hev1 hpair hle
    simp [continuous_plot, htl, hev0, hhd, hev1, hpair, not_lt.mpr hle]
  · intro flag ev e s h t0 t1 f s1 d s2 lo hi pts s3 htl hev0 hhd hev1 hpair
      hlt hsample
    have hlen : pts.length = sampleCount := by
      have hx := sampleLam_length flag ev f (samplePoints lo hi sampleCount)
        s2 pts s3 hsample
      simpa [samplePoints] using hx
    refine ⟨?_, hlen, ?_, ?_⟩
    · simp [continuous_plot, htl, hev0, hhd, hev1, hpair, hlt, hsample]
    · rw [(plot_prims_count pts).1, hlen]
    · rw [(plot_prims_count pts).2]
      norm_num
  · norm_num [sampleCount, N]
  · with_unfolding_all rfl

/-- Witness for C9: a Number in procedure position fails with
`NotAProcedureError`. -/
theorem claim9_witness :
    continuous_plot false (eval false 10)
        (callE "continuous-plot" [numE 1, callE "list" [numE 0, numE 10]])
        initStore 0 =
      .error .notAProcedureError :=
  claim9_continuous_plot.1 false (eval false 10)
    (callE "continuous-plot" [numE 1, callE "list" [numE 0, numE 10]])
    initStore 0 (numE 1) (callE "list" [numE 0, numE 10]) (numE 1) initStore
    rfl rfl (by simp [numE, Expression.m_head])

end Plotscript
